import Mathlib

/-!
Verification of the telemetry derivation and counter-aggregation engine of the
tb-api-backend repository: a shallow embedding, in Lean, of the pure logic of
`live_counters.py`, `daily_counters.py` and `alarm_logic.py`, together with
theorems settling the behavioural claims about those modules.

Modelling conventions:
* Python dicts are association lists (`dictGet`/`dictSet` mirror `d.get`/`d[k]=v`,
  with update-in-place and insertion-order append, as CPython dicts behave).
* Python floats are `PFloat`: either `nan` or an exact rational value.  The
  heights handled by this code are decimal millimetre readings, represented
  exactly by `ℚ`; the special values `inf`/`-inf` and float rounding are outside
  the model (no claim depends on them).
* `json.loads` is modelled by an executable recursive-descent parser over the
  JSON value grammar (objects, arrays, strings with the common escapes,
  numbers, booleans, null).  `\u` escapes and the rejection of leading zeros
  in numbers are not modelled; no claim depends on them.
* Stateful Python functions become pure functions from an explicit state
  (world) to a new state; `time.monotonic()` becomes an explicit `now` argument,
  and outbound HTTP effects (alarm creation, telemetry writes) become values in
  the result (`Bool`/counters), with fallible upstream calls as `Except`.
-/

/-! ## Association lists modelling Python dicts -/

def dictGet {κ α : Type} [DecidableEq κ] : List (κ × α) → κ → Option α
  | [], _ => none
  | (k₀, v₀) :: t, k => if k₀ = k then some v₀ else dictGet t k

def dictGetD {κ α : Type} [DecidableEq κ] (d : List (κ × α)) (k : κ) (dflt : α) : α :=
  (dictGet d k).getD dflt

/-- `d[k] = v` on a CPython dict: overwrite in place if the key exists,
otherwise append (insertion order). -/
def dictSet {κ α : Type} [DecidableEq κ] : List (κ × α) → κ → α → List (κ × α)
  | [], k, v => [(k, v)]
  | (k₀, v₀) :: t, k, v => if k₀ = k then (k₀, v) :: t else (k₀, v₀) :: dictSet t k v

/-! ## Python float values

`PFloat` models the float values that flow through the counters code: `nan`
(missing height) or an exact rational.  `movement`/`_movement_detected` treat
any comparison against `nan` as false, exactly as IEEE comparisons do in the
source's `math.isnan` guards. -/

inductive PFloat where
  | nan : PFloat
  | val (q : ℚ) : PFloat
deriving DecidableEq

def PFloat.isNan : PFloat → Bool
  | .nan => true
  | .val _ => false

/-! ## Characters, digits and decimal parsing -/

def lbraceChar : Char := Char.ofNat 123
def rbraceChar : Char := Char.ofNat 125
def quoteChar : Char := Char.ofNat 34

def isWsChar (c : Char) : Bool :=
  c == ' ' || c == '\t' || c == '\n' || c == '\r'

def isDigitChar (c : Char) : Bool :=
  '0' ≤ c && c ≤ '9'

def digitsToNat (ds : List Char) : Nat :=
  ds.foldl (fun a c => a * 10 + (c.toNat - 48)) 0

def takeDigits : List Char → List Char × List Char
  | [] => ([], [])
  | c :: rest =>
    if isDigitChar c then
      let (ds, r) := takeDigits rest
      (c :: ds, r)
    else ([], c :: rest)

def tenPow (n : Nat) : ℚ := (10 : ℚ) ^ n

/-- Value of an integer digit string together with a fractional digit string:
`ip.fp` as an exact rational. -/
def decValue (ip fp : List Char) : ℚ :=
  (digitsToNat ip : ℚ) + (digitsToNat fp : ℚ) / tenPow fp.length

/-- Apply a base-10 exponent: `q * 10^e` with integer `e`. -/
def applyExp (q : ℚ) (neg : Bool) (e : Nat) : ℚ :=
  if neg then q / tenPow e else q * tenPow e

def trimWsChars (cs : List Char) : List Char :=
  ((cs.dropWhile (isWsChar ·)).reverse.dropWhile (isWsChar ·)).reverse

def skipWsChars : List Char → List Char
  | [] => []
  | c :: cs => if isWsChar c then skipWsChars cs else c :: cs

/-- Decimal accepted by Python's `float(...)`: `digits [. digits] [e|E [+|-] digits]`,
where at least one mantissa digit is present (either side of the point) and the
whole input must be consumed. -/
def parsePyDec (cs : List Char) : Option ℚ :=
  let (ip, r1) := takeDigits cs
  let (fp, r2) :=
    match r1 with
    | c :: r => if c == '.' then takeDigits r else ([], r1)
    | [] => ([], r1)
  if ip.isEmpty && fp.isEmpty then none
  else
    let mant := decValue ip fp
    match r2 with
    | [] => some mant
    | c :: r =>
      if c == 'e' || c == 'E' then
        let (eneg, r') :=
          match r with
          | c2 :: rr =>
            if c2 == '-' then (true, rr)
            else if c2 == '+' then (false, rr)
            else (false, c2 :: rr)
          | [] => (false, ([] : List Char))
        let (eds, r'') := takeDigits r'
        if eds.isEmpty || !r''.isEmpty then none
        else some (applyExp mant eneg (digitsToNat eds))
      else none

/-- Python `float(s)` on a string: strip whitespace, optional sign, `nan`
(case-insensitive) or a decimal literal; `none` models `ValueError`.
(`inf`/`infinity` are outside the model; no claim involves them.) -/
def pyFloatOfString (s : String) : Option PFloat :=
  let cs := trimWsChars s.data
  let (neg, cs1) :=
    match cs with
    | c :: r =>
      if c == '-' then (true, r) else if c == '+' then (false, r) else (false, cs)
    | [] => (false, cs)
  if cs1.map Char.toLower = ['n', 'a', 'n'] then some .nan
  else
    match parsePyDec cs1 with
    | some q => some (.val (if neg then -q else q))
    | none => none

/-! ## JSON values and `json.loads` -/

inductive JVal where
  | null : JVal
  | jbool (b : Bool) : JVal
  | num (q : ℚ) : JVal
  | jstr (s : String) : JVal
  | arr (xs : List JVal) : JVal
  | obj (fs : List (String × JVal)) : JVal

/-- Python truthiness (`bool(x)` / the `or` operator) on JSON-decoded values. -/
def truthy : JVal → Bool
  | .null => false
  | .jbool b => b
  | .num q => q != 0
  | .jstr s => s != ""
  | .arr xs => !xs.isEmpty
  | .obj fs => !fs.isEmpty

/-- `a or b` where `a`, `b` are `x.get(...)` results (`none` = key absent /
`None`): returns the first operand if truthy, otherwise the second operand
unchanged (which may itself be falsy — Python returns the last operand). -/
def pyOr (a b : Option JVal) : Option JVal :=
  match a with
  | some v => if truthy v then some v else b
  | none => b

/-- Same for string-valued dict lookups (the `k=v` fallback path): `""` is falsy. -/
def pyOrStr (a b : Option String) : Option String :=
  match a with
  | some s => if s != "" then some s else b
  | none => b

/-- `x or dflt` for a string default (used as `(... or "nan")`, `(... or "")`). -/
def orStrD (a : Option String) (dflt : String) : String :=
  match a with
  | some s => if s != "" then s else dflt
  | none => dflt

/-- String body parser, called after the opening quote: returns the decoded
characters and the input after the closing quote.  Handles the single-character
escapes; `\u` escapes are outside the model. -/
def parseJStrBody : Nat → List Char → Option (List Char × List Char)
  | 0, _ => none
  | _ + 1, [] => none
  | fuel + 1, c :: cs =>
    if c == quoteChar then some ([], cs)
    else if c == '\\' then
      match cs with
      | e :: cs' =>
        let dec : Option Char :=
          if e == quoteChar then some quoteChar
          else if e == '\\' then some '\\'
          else if e == '/' then some '/'
          else if e == 'n' then some '\n'
          else if e == 't' then some '\t'
          else if e == 'r' then some '\r'
          else none
        match dec with
        | some d => (parseJStrBody fuel cs').map (fun p => (d :: p.1, p.2))
        | none => none
      | [] => none
    else (parseJStrBody fuel cs).map (fun p => (c :: p.1, p.2))

def dropLit : List Char → List Char → Option (List Char)
  | [], cs => some cs
  | l :: ls, c :: cs => if c == l then dropLit ls cs else none
  | _ :: _, [] => none

/-- JSON number at the head of the input: `-? digits (. digits)? ((e|E)(+|-)? digits)?`. -/
def parseJNum (cs : List Char) : Option (ℚ × List Char) :=
  let (neg, cs1) :=
    match cs with
    | c :: r => if c == '-' then (true, r) else (false, cs)
    | [] => (false, cs)
  let (ip, r1) := takeDigits cs1
  if ip.isEmpty then none
  else
    let step2 : Option (List Char × List Char) :=
      match r1 with
      | c :: r =>
        if c == '.' then
          let (ds, rr) := takeDigits r
          if ds.isEmpty then none else some (ds, rr)
        else some ([], c :: r)
      | [] => some ([], [])
    match step2 with
    | none => none
    | some (fp, r2) =>
      let mant := decValue ip fp
      let mant := if neg then -mant else mant
      match r2 with
      | c :: r =>
        if c == 'e' || c == 'E' then
          let (eneg, r') :=
            match r with
            | c2 :: rr =>
              if c2 == '-' then (true, rr)
              else if c2 == '+' then (false, rr)
              else (false, c2 :: rr)
            | [] => (false, ([] : List Char))
          let (eds, r'') := takeDigits r'
          if eds.isEmpty then none
          else some (applyExp mant eneg (digitsToNat eds), r'')
        else some (mant, c :: r)
      | [] => some (mant, [])

mutual

/-- One JSON value at the head of the input (whitespace-tolerant). -/
def parseJVal : Nat → List Char → Option (JVal × List Char)
  | 0, _ => none
  | fuel + 1, cs =>
    match skipWsChars cs with
    | [] => none
    | c :: rest =>
      if c == lbraceChar then
        match skipWsChars rest with
        | c2 :: r2 =>
          if c2 == rbraceChar then some (.obj [], r2)
          else parseJMembers fuel (c2 :: r2) []
        | [] => none
      else if c == '[' then
        match skipWsChars rest with
        | c2 :: r2 =>
          if c2 == ']' then some (.arr [], r2)
          else parseJItems fuel (c2 :: r2) []
        | [] => none
      else if c == quoteChar then
        match parseJStrBody (rest.length + 1) rest with
        | some (sc, r') => some (.jstr (String.mk sc), r')
        | none => none
      else if c == 't' then
        (dropLit ['r', 'u', 'e'] rest).map (fun r => (.jbool true, r))
      else if c == 'f' then
        (dropLit ['a', 'l', 's', 'e'] rest).map (fun r => (.jbool false, r))
      else if c == 'n' then
        (dropLit ['u', 'l', 'l'] rest).map (fun r => (.null, r))
      else if c == '-' || isDigitChar c then
        (parseJNum (c :: rest)).map (fun p => (.num p.1, p.2))
      else none

/-- Members of an object, positioned at the start of a key string; the
accumulated dict uses `dictSet`, so a duplicate key overwrites (as
`json.loads` does). -/
def parseJMembers : Nat → List Char → List (String × JVal) → Option (JVal × List Char)
  | 0, _, _ => none
  | fuel + 1, cs, acc =>
    match cs with
    | c :: rest =>
      if c == quoteChar then
        match parseJStrBody (rest.length + 1) rest with
        | some (kc, r1) =>
          match skipWsChars r1 with
          | c2 :: r2 =>
            if c2 == ':' then
              match parseJVal fuel r2 with
              | some (v, r3) =>
                let acc' := dictSet acc (String.mk kc) v
                match skipWsChars r3 with
                | c3 :: r4 =>
                  if c3 == ',' then parseJMembers fuel (skipWsChars r4) acc'
                  else if c3 == rbraceChar then some (.obj acc', r4)
                  else none
                | [] => none
              | none => none
            else none
          | [] => none
        | none => none
      else none
    | [] => none

/-- Items of an array, positioned at the start of a value. -/
def parseJItems : Nat → List Char → List JVal → Option (JVal × List Char)
  | 0, _, _ => none
  | fuel + 1, cs, acc =>
    match parseJVal fuel cs with
    | some (v, r1) =>
      match skipWsChars r1 with
      | c2 :: r2 =>
        if c2 == ',' then parseJItems fuel r2 (acc ++ [v])
        else if c2 == ']' then some (.arr (acc ++ [v]), r2)
        else none
      | [] => none
    | none => none

end

/-- `json.loads(s)`: parse one value, requiring only whitespace afterwards;
`none` models a raised `JSONDecodeError`. -/
def jsonLoads (s : String) : Option JVal :=
  match parseJVal (s.length + 1) s.data with
  | some (v, rest) => if (skipWsChars rest).isEmpty then some v else none
  | none => none

/-! ## `pack_out` extraction (live `_parse_pack_out`, daily `_extract_from_pack_out`) -/

/-- Key presence in a JSON object, as Python's `k in j` sees it: a key stored
with a JSON `null` value is present. -/
def jget (fs : List (String × JVal)) (k : String) : Option JVal :=
  dictGet fs k

/-- Python's `j.get(k)` on a JSON object: returns the stored value, except that
a stored JSON `null` decodes to Python `None` and is therefore
indistinguishable from an absent key. -/
def jgetv (fs : List (String × JVal)) (k : String) : Option JVal :=
  match dictGet fs k with
  | some .null => none
  | r => r

/-- A floor label coming out of the JSON coalescing chain.  The pipeline only
ever stores string labels; a non-string JSON value in a floor-label field is
outside the model. -/
def labelOf : Option JVal → Option String
  | some (.jstr s) => some s
  | _ => none

/-- Python `float(x)` on a JSON-decoded value; `none` models the raised
`TypeError`/`ValueError`. -/
def pyFloatOfJVal : JVal → Option PFloat
  | .num q => some (.val q)
  | .jbool b => some (.val (if b then 1 else 0))
  | .jstr s => pyFloatOfString s
  | .null => none
  | .arr _ => none
  | .obj _ => none

/-- `str(x).upper() == "OPEN"` on a JSON-decoded value (the rendering of a
non-string value never equals `"OPEN"`). -/
def strUpperIsOpen : JVal → Bool
  | .jstr s => s.toUpper == "OPEN"
  | _ => false

/-- The body of the `try:` block of `_parse_pack_out` once `json.loads`
succeeded; `none` models any exception inside the block (non-object JSON, or
`float(h)` failing), which sends the caller to the `k=v` fallback.  The
floor/height chains use `j.get` (`jgetv`), so a height chain that ends in a
stored JSON `null` yields `h is None`: `float` is never called and the
function stays on the JSON path with height NaN. -/
def jsonPathLive (j : JVal) : Option (Option String × PFloat × Option Bool) :=
  match j with
  | .obj fs =>
    let fl := labelOf (pyOr (jgetv fs "current_floor_label") (jgetv fs "floor_label"))
    let h := pyOr (pyOr (jgetv fs "height_mm") (jgetv fs "height")) (jgetv fs "height_raw")
    let hm : Option PFloat :=
      match h with
      | none => some .nan
      | some v => pyFloatOfJVal v
    match hm with
    | none => none
    | some hv =>
      let door : Option Bool :=
        match jget fs "door_open" with
        | some v => some (truthy v)
        | none =>
          match jget fs "door_val" with
          | some v => some (strUpperIsOpen v)
          | none => none
      some (fl, hv, door)
  | _ => none

/-- `v.split("|")` (keeps empty pieces, like Python `str.split` with an
explicit separator). -/
def splitPipe : List Char → List (List Char)
  | [] => [[]]
  | c :: rest =>
    let r := splitPipe rest
    if c == '|' then [] :: r
    else
      match r with
      | h :: t => (c :: h) :: t
      | [] => [[c]]

/-- `p.split("=", 1)` when `"=" in p`: split at the first `=`. -/
def splitEq1 : List Char → Option (List Char × List Char)
  | [] => none
  | c :: rest =>
    if c == '=' then some ([], rest)
    else (splitEq1 rest).map (fun p => (c :: p.1, p.2))

/-- The inline `parts` dict of `_parse_pack_out`'s fallback loop. -/
def kvDictLive (cs : List Char) : List (String × String) :=
  (splitPipe cs).foldl
    (fun d p =>
      match splitEq1 p with
      | some kv => dictSet d (String.mk kv.1) (String.mk kv.2)
      | none => d) []

/-- `_parse_pack_kv` of `daily_counters.py` (explicitly skips empty pieces). -/
def parsePackKV (cs : List Char) : List (String × String) :=
  (splitPipe cs).foldl
    (fun d p =>
      if p.isEmpty then d
      else
        match splitEq1 p with
        | some kv => dictSet d (String.mk kv.1) (String.mk kv.2)
        | none => d) []

/-- The `k=v|k=v` fallback branch of `_parse_pack_out`. -/
def kvPathLive (s : String) : Option String × PFloat × Option Bool :=
  let parts := kvDictLive s.data
  let fl := pyOrStr (dictGet parts "current_floor_label") (dictGet parts "floor_label")
  let hstr := orStrD
    (pyOrStr (pyOrStr (dictGet parts "height_mm") (dictGet parts "height"))
      (dictGet parts "height_raw")) "nan"
  let hm :=
    match pyFloatOfString hstr with
    | some pf => pf
    | none => PFloat.nan
  let dv := (orStrD (pyOrStr (dictGet parts "door_open") (dictGet parts "door_val")) "").toUpper
  let door := if dv != "" then some (dv == "TRUE" || dv == "OPEN" || dv == "1") else none
  (fl, hm, door)

/-- `_parse_pack_out` of `live_counters.py`: `(floor_label, height_mm, door_open)`
with JSON tried first and the `k=v` form as fallback on any failure. -/
def parsePackOut (s : String) : Option String × PFloat × Option Bool :=
  if s == "" then (none, .nan, none)
  else
    match jsonLoads s with
    | some j =>
      match jsonPathLive j with
      | some t => t
      | none => kvPathLive s
    | none => kvPathLive s

/-- `_safe_float` applied to a JSON-decoded value: coercion failure or a
non-finite result becomes the `nan` default. -/
def safeFloatJ (v : JVal) : PFloat :=
  match pyFloatOfJVal v with
  | some (.val q) => .val q
  | _ => .nan

/-- `_safe_float` applied to an optional string (`float(None)` raises, a
`"nan"` parse is non-finite; both give the `nan` default). -/
def safeFloatStrOpt (x : Option String) : PFloat :=
  match x with
  | some s =>
    match pyFloatOfString s with
    | some (.val q) => .val q
    | _ => .nan
  | none => .nan

/-- The body of the `try:` block of `_extract_from_pack_out` once `json.loads`
succeeded (here only a non-object JSON raises — heights go through
`_safe_float`; the floor/height chains use `j.get` via `jgetv`, which decodes
a stored JSON `null` as an absent key). -/
def jsonPathDaily (j : JVal) : Option (Option String × PFloat × Option Bool) :=
  match j with
  | .obj fs =>
    let fl := labelOf (pyOr (jgetv fs "current_floor_label") (jgetv fs "floor_label"))
    let h := pyOr (pyOr (jgetv fs "height_mm") (jgetv fs "height")) (jgetv fs "height_raw")
    let hv : PFloat :=
      match h with
      | none => .nan
      | some v => safeFloatJ v
    let door : Option Bool :=
      match jget fs "door_open" with
      | some v => some (truthy v)
      | none =>
        match jget fs "door_val" with
        | some v => some (strUpperIsOpen v)
        | none => none
    some (fl, hv, door)
  | _ => none

/-- The `k=v|k=v` branch of `_extract_from_pack_out`. -/
def kvPathDaily (s : String) : Option String × PFloat × Option Bool :=
  let kv := parsePackKV s.data
  let fl := pyOrStr (dictGet kv "current_floor_label") (dictGet kv "floor_label")
  let hm := safeFloatStrOpt
    (pyOrStr (pyOrStr (dictGet kv "height_mm") (dictGet kv "height"))
      (dictGet kv "height_raw"))
  let dv := (orStrD (pyOrStr (dictGet kv "door_open") (dictGet kv "door_val")) "").toUpper
  let door := if dv != "" then some (dv == "TRUE" || dv == "OPEN" || dv == "1") else none
  (fl, hm, door)

/-- `_extract_from_pack_out` of `daily_counters.py`. -/
def extractFromPackOut (s : String) : Option String × PFloat × Option Bool :=
  if s == "" then (none, .nan, none)
  else
    match jsonLoads s with
    | some j =>
      match jsonPathDaily j with
      | some t => t
      | none => kvPathDaily s
    | none => kvPathDaily s

/-- `_movement` / `_movement_detected`: true only when both heights are
readings and they differ by more than the threshold. -/
def movement (prev h : PFloat) (thr : ℚ) : Bool :=
  match prev, h with
  | .val p, .val x => |x - p| > thr
  | _, _ => false

/-! ## Epoch-milliseconds to `YYYY-MM-DD` (`_local_date_str` with the default
`LC_TZ = "UTC"`, i.e. `time.strftime("%Y-%m-%d", time.gmtime(ts_ms / 1000.0))`) -/

/-- Days-since-epoch to proleptic-Gregorian `(year, month, day)`
(the standard civil-from-days algorithm, as `time.gmtime` computes). -/
def civilFromDays (z0 : Int) : Int × Int × Int :=
  let z := z0 + 719468
  let era := z.fdiv 146097
  let doe := z - era * 146097
  let yoe := (doe - doe.fdiv 1460 + doe.fdiv 36524 - doe.fdiv 146096).fdiv 365
  let y := yoe + era * 400
  let doy := doe - (365 * yoe + yoe.fdiv 4 - yoe.fdiv 100)
  let mp := (5 * doy + 2).fdiv 153
  let d := doy - (153 * mp + 2).fdiv 5 + 1
  let m := mp + (if mp < 10 then 3 else -9)
  (y + (if m ≤ 2 then 1 else 0), m, d)

def pad2 (n : Int) : String :=
  (if n < 10 then "0" else "") ++ toString n

def dateStrOfDays (days : Int) : String :=
  let c := civilFromDays days
  toString c.1 ++ "-" ++ pad2 c.2.1 ++ "-" ++ pad2 c.2.2

/-- `_local_date_str` under the default UTC timezone knob. -/
def localDateStr (ts_ms : Int) : String :=
  dateStrOfDays ((ts_ms.fdiv 1000).fdiv 86400)

/-! ## Live aggregator (`live_counters.py`) -/

/-- The per-device `lc:state:{device_id}` hash: `ts` (stringified int), `floor`
(string), `h` (`"nan"` or a stringified float — kept as `PFloat` since it
round-trips), `door` (`"1"`, `"0"`, or `""` for never-reported). -/
structure DevState where
  ts : Int
  floor : String
  h : PFloat
  door : String
deriving DecidableEq

/-- The module-level in-memory stores `_inmem` (counter hashes by logical key)
and `_state_inmem` (last-sample state per device). -/
structure LCWorld where
  inmem : List (String × List (String × Int))
  state : List (String × DevState)
deriving DecidableEq

def emptyLCWorld : LCWorld := { inmem := [], state := [] }

def doorKey (date dev : String) : String := "lc:" ++ date ++ ":" ++ dev ++ ":door"

def idleKey (date dev : String) : String := "lc:" ++ date ++ ":" ++ dev ++ ":idle_ms"

/-- `_hinc`: `h = _inmem.setdefault(key, {}); h[field] = h.get(field, 0) + delta`. -/
def hinc (m : List (String × List (String × Int))) (key field : String) (delta : Int) :
    List (String × List (String × Int)) :=
  let h := (dictGet m key).getD []
  dictSet m key (dictSet h field (dictGetD h field 0 + delta))

def lastTs (w : LCWorld) (dev : String) : Int :=
  match dictGet w.state dev with
  | some s => s.ts
  | none => 0

def lastFloor (w : LCWorld) (dev : String) : Option String :=
  (dictGet w.state dev).map (·.floor)

def lastH (w : LCWorld) (dev : String) : PFloat :=
  match dictGet w.state dev with
  | some s => s.h
  | none => .nan

/-- `last_door_bool`: `None` when the device has no stored state; otherwise
`stored_door == "1"` — note a stored `""` (door never reported) reads back as
`false`, not unknown. -/
def lastDoorBool (w : LCWorld) (dev : String) : Option Bool :=
  (dictGet w.state dev).map (fun s => s.door == "1")

/-- `a or rest` on floor labels (`""` is falsy). -/
def orLabel (a : Option String) (rest : String) : String :=
  match a with
  | some s => if s != "" then s else rest
  | none => rest

def LC_MOVEMENT_THRESHOLD_MM : ℚ := 50

/-- `process_pack_out_sample` (with the default `LC_ENABLED = true`):
parse the sample, drop it if it carries nothing or is not newer than the
stored timestamp, count a closed→open door edge, accumulate idle milliseconds
between two door-closed non-moving samples, and persist the new state. -/
def processPackOutSample (w : LCWorld) (device_id : String) (ts_ms : Int) (pack : String) :
    LCWorld :=
  let p := parsePackOut pack
  let fl := p.1
  let h := p.2.1
  let dopen := p.2.2
  if fl.isNone && h.isNan && dopen.isNone then w
  else
    let last_ts := lastTs w device_id
    if ts_ms ≤ last_ts then w
    else
      let last_floor := lastFloor w device_id
      let last_h := lastH w device_id
      let last_door_bool := lastDoorBool w device_id
      let date_str := localDateStr ts_ms
      let floor := orLabel fl (orLabel last_floor "UNKNOWN")
      let m1 :=
        if last_door_bool == some false && dopen == some true then
          hinc w.inmem (doorKey date_str device_id) floor 1
        else w.inmem
      let m2 :=
        if (dopen == some false && last_door_bool == some false)
            && !movement last_h h LC_MOVEMENT_THRESHOLD_MM then
          let dt := ts_ms - last_ts
          if dt > 0 then hinc m1 (idleKey date_str device_id) floor dt else m1
        else m1
      let newDoor :=
        if dopen == some true then "1"
        else if dopen == some false then "0"
        else
          match dictGet w.state device_id with
          | some s => s.door
          | none => ""
      { inmem := m2,
        state := dictSet w.state device_id
          { ts := ts_ms, floor := floor, h := h, door := newDoor } }

/-- Observation: the per-floor door-open count of a device for a date. -/
def liveDoorCount (w : LCWorld) (date dev floor : String) : Int :=
  dictGetD ((dictGet w.inmem (doorKey date dev)).getD []) floor 0

/-- Observation: the per-floor idle milliseconds of a device for a date. -/
def liveIdleMs (w : LCWorld) (date dev floor : String) : Int :=
  dictGetD ((dictGet w.inmem (idleKey date dev)).getD []) floor 0

/-! ## Bucketed alarms (`alarm_logic.check_bucket_and_trigger`) -/

def ZONE_MM : ℚ := 50

def BUCKET_COUNT_THRESHOLD : Nat := 3

/-- One entry of `bucket_counts[device][key]`. -/
structure Bucket where
  center : ℚ
  count : Nat
deriving DecidableEq

/-- The `for b in buckets:` scan of `check_bucket_and_trigger` (height known):
first bucket whose center is within `±ZONE_MM` of the height is incremented
(fire-and-remove at the count threshold, first-match-wins, early return);
with no match a fresh single-count bucket is appended.  The boolean reports
whether `create_alarm_on_tb` was invoked. -/
def bucketStep (height : ℚ) : List Bucket → List Bucket × Bool
  | [] => ([{ center := height, count := 1 }], false)
  | b :: rest =>
    if |b.center - height| ≤ ZONE_MM then
      let c := b.count + 1
      if c ≥ BUCKET_COUNT_THRESHOLD then (rest, true)
      else ({ b with count := c } :: rest, false)
    else
      let r := bucketStep height rest
      (b :: r.1, r.2)

/-- `check_bucket_and_trigger` for one device/key bucket list: a missing
height skips silently. -/
def checkBucketAndTrigger (buckets : List Bucket) (height : Option ℚ) : List Bucket × Bool :=
  match height with
  | none => (buckets, false)
  | some h => bucketStep h buckets

/-- The call site in `/check_alarm/` for one bucketed key: only a present
value strictly above the key's threshold reaches the bucket logic. -/
def observeBucketed (buckets : List Bucket) (value : Option ℚ) (thr : ℚ) (height : Option ℚ) :
    List Bucket × Bool :=
  match value with
  | some v => if v > thr then checkBucketAndTrigger buckets height else (buckets, false)
  | none => (buckets, false)

/-! ## Door-open-duration alarm (`alarm_logic.process_door_alarm`) -/

def DOOR_OPEN_THRESHOLD_SEC : ℚ := 15

/-- Module state: `device_door_state` and `door_open_since` (monotonic seconds). -/
structure DoorW where
  doorState : List (String × Bool)
  openSince : List (String × ℚ)
deriving DecidableEq

def emptyDoorW : DoorW := { doorState := [], openSince := [] }

/-- `process_door_alarm` with `time.monotonic()` passed in as `now`; the
boolean reports whether the "Door Open Too Long" alarm was created. -/
def processDoorAlarm (w : DoorW) (dev : String) (doorIn : Option Bool) (now : ℚ) :
    DoorW × Bool :=
  let (door, ds) :=
    match doorIn with
    | none => (dictGetD w.doorState dev false, w.doorState)
    | some b => (b, dictSet w.doorState dev b)
  if door then
    match dictGet w.openSince dev with
    | none => ({ doorState := ds, openSince := dictSet w.openSince dev now }, false)
    | some since =>
      let duration := now - since
      if duration ≥ DOOR_OPEN_THRESHOLD_SEC then
        ({ doorState := ds, openSince := dictSet w.openSince dev now }, true)
      else
        ({ doorState := ds, openSince := w.openSince }, false)
  else
    ({ doorState := ds, openSince := w.openSince.filter (fun kv => kv.1 ≠ dev) }, false)

/-- Run a sequence of `(now, door_open)` calls for one device, counting the
alarms fired. -/
def runDoor (w : DoorW) (dev : String) : List (ℚ × Option Bool) → DoorW × Nat
  | [] => (w, 0)
  | (t, d) :: rest =>
    let r := processDoorAlarm w dev d t
    let r2 := runDoor r.1 dev rest
    (r2.1, (if r.2 then 1 else 0) + r2.2)

/-! ## Floor-mismatch alarm (`alarm_logic.floor_mismatch_detected` and the
`/check_alarm/` endpoint slice that drives it) -/

def TOLERANCE_MM : ℚ := 10

/-- `floor_mismatch_detected(height, current_floor_index, floor_boundaries)`:
`(mismatch?, deviation, floor_center)`. -/
def floorMismatchDetected (height : Option ℚ) (cfi : Option Int)
    (boundaries : Option (List ℚ)) : Bool × ℚ × ℚ :=
  match height, cfi, boundaries with
  | some h, some i, some bs =>
    if i < 0 || i ≥ bs.length then (false, 0, 0)
    else
      let c := bs.getD i.toNat 0
      (|h - c| > TOLERANCE_MM, h - c, c)
  | _, _, _ => (false, 0, 0)

/-- The floor-mismatch slice of `/check_alarm/`: `door_bool` falls back to the
last known device door state (default closed); the check runs only when a
floor index is present and the door is open, the device id resolves, and the
boundary fetch succeeds.  Returns whether the CRITICAL "Floor Mismatch Alarm"
is emitted. -/
def checkAlarmFloorMismatch (deviceId : Option String) (bsFetch : Option (List ℚ))
    (height : Option ℚ) (cfi : Option Int) (doorIn : Option Bool) (storedDoor : Option Bool) :
    Bool :=
  let door_bool := doorIn.getD (storedDoor.getD false)
  if cfi.isSome && door_bool then
    match deviceId with
    | some _ => (floorMismatchDetected height cfi bsFetch).1
    | none => false
  else false

/-! ## Windowed daily counters (`daily_counters.py`) -/

def MOVEMENT_THRESHOLD_MM : ℚ := 50

/-- One parsed sample of the window walk: `(ts, floor_label, height, door_open)`. -/
abbrev DSample := Int × Option String × PFloat × Option Bool

def insertByTs (x : DSample) : List DSample → List DSample
  | [] => [x]
  | y :: rest => if y.1 ≤ x.1 then y :: insertByTs x rest else x :: y :: rest

/-- `samples.sort(key=lambda x: x[0])` — a stable sort by timestamp (stability
makes the result algorithm-independent). -/
def sortByTs (xs : List DSample) : List DSample :=
  xs.foldl (fun acc x => insertByTs x acc) []

/-- Python 3 `round(ms / 1000.0)` for integer `ms`: round half to even. -/
def pyRound1000 (ms : Int) : Int :=
  let q := ms.fdiv 1000
  let r := ms.emod 1000
  if 2 * r < 1000 then q
  else if 2 * r > 1000 then q + 1
  else if q % 2 = 0 then q else q + 1

/-- Loop state of `compute_window_stats_for_device`'s pairwise walk. -/
structure DAcc where
  door : List (String × Int)
  idle : List (String × Int)
  prev_ts : Int
  prev_floor : Option String
  prev_h : PFloat
  prev_door : Option Bool
deriving DecidableEq

/-- One iteration of the pairwise walk: count a closed→open edge, accumulate
the gap into the floor's idle milliseconds when both samples are door-closed
and no movement beyond the threshold occurred. -/
def dailyStep (thr : ℚ) (acc : DAcc) (s : DSample) : DAcc :=
  let ts := s.1
  let fl := s.2.1
  let h := s.2.2.1
  let dopen := s.2.2.2
  let dt := ts - acc.prev_ts
  let floor := orLabel fl (orLabel acc.prev_floor "UNKNOWN")
  let door' :=
    if acc.prev_door == some false && dopen == some true then
      dictSet acc.door floor (dictGetD acc.door floor 0 + 1)
    else acc.door
  let idle' :=
    if (dopen == some false && acc.prev_door == some false)
        && !movement acc.prev_h h thr then
      dictSet acc.idle floor (dictGetD acc.idle floor 0 + dt)
    else acc.idle
  { door := door', idle := idle', prev_ts := ts, prev_floor := some floor,
    prev_h := h, prev_door := dopen }

structure WindowStats where
  date : String
  door_opens : List (String × Int)
  idle_sec : List (String × Int)
deriving DecidableEq

/-- The pure core of `compute_window_stats_for_device` once the raw
`pack_out` series `(ts, value)` has been fetched: fewer than two samples give
`None`; otherwise sort by timestamp, walk consecutive pairs, and report
per-floor door-open counts and (rounded) idle seconds, dated by the end of
the window. -/
def computeStatsCore (series : List (Int × String)) (end_ms : Int) (thr : ℚ) :
    Option WindowStats :=
  if series.length < 2 then none
  else
    let samples := sortByTs (series.map (fun it => (it.1, extractFromPackOut it.2)))
    match samples with
    | [] => none
    | s0 :: rest =>
      let acc0 : DAcc :=
        { door := [], idle := [], prev_ts := s0.1, prev_floor := s0.2.1,
          prev_h := s0.2.2.1, prev_door := s0.2.2.2 }
      let acc := rest.foldl (dailyStep thr) acc0
      let end_date := dateStrOfDays (((end_ms - 1).fdiv 1000).fdiv 86400)
      some { date := end_date, door_opens := acc.door,
             idle_sec := acc.idle.map (fun kv => (kv.1, pyRound1000 kv.2)) }

/-- A device as the job sees it: its id (`None` models a malformed device
record), its raw `pack_out` series for the window — `Except` models a raised
fetch error — and whether the telemetry write-back succeeds. -/
structure JDev where
  id : Option String
  name : String
  fetch : Except String (List (Int × String))
  writeOk : Bool

/-- `compute_window_stats_for_device`: missing device id short-circuits to
`None`; a fetch failure propagates as an exception to the caller. -/
def computeWindowStatsForDevice (d : JDev) (end_ms : Int) (thr : ℚ) :
    Except String (Option WindowStats) :=
  match d.id with
  | none => .ok none
  | some _ =>
    match d.fetch with
    | .error e => .error e
    | .ok series => .ok (computeStatsCore series end_ms thr)

/-- The counters of `run_once_over_window`'s summary (its other fields —
date, lookback, interval — are constants of the run) plus the accumulated
per-device results. -/
structure JAcc where
  total : Nat
  processed : Nat
  skipped : Nat
  results : List (String × WindowStats)
deriving DecidableEq

/-- The per-device body of `run_once_over_window`'s loop: a raised exception
(fetch or write) is caught and logged — it changes no counter besides the
already-performed `total_devices` increment; a `None` stats result counts as
skipped; otherwise write and append to results. -/
def devStep (end_ms : Int) (thr : ℚ) (acc : JAcc) (d : JDev) : JAcc :=
  let acc := { acc with total := acc.total + 1 }
  match computeWindowStatsForDevice d end_ms thr with
  | .error _ => acc
  | .ok none => { acc with skipped := acc.skipped + 1 }
  | .ok (some stats) =>
    if d.writeOk then
      { acc with processed := acc.processed + 1,
                 results := acc.results ++ [(d.name, stats)] }
    else acc

/-- One page of `tb_list_devices` output. -/
structure JPage where
  devices : List JDev
  hasNext : Bool

/-- The pagination loop of `run_once_over_window`: stop on an empty page or
when `hasNext` is not true; an exhausted page list models the upstream
returning no further data. -/
def runPages (end_ms : Int) (thr : ℚ) : List JPage → JAcc → JAcc
  | [], acc => acc
  | p :: rest, acc =>
    if p.devices.isEmpty then acc
    else
      let acc' := p.devices.foldl (devStep end_ms thr) acc
      if p.hasNext then runPages end_ms thr rest acc' else acc'

/-- `run_once_over_window` over the pages the device listing yields. -/
def runOnceOverWindow (pages : List JPage) (now_ms : Int) : JAcc :=
  runPages now_ms MOVEMENT_THRESHOLD_MM pages
    { total := 0, processed := 0, skipped := 0, results := [] }

/-! ## Concrete inputs used by the claim theorems and witnesses -/

def lcWorldSeen : LCWorld :=
  { inmem := [], state := [("dev", { ts := 5000, floor := "G", h := .nan, door := "" })] }

def dacc0 : DAcc :=
  { door := [], idle := [], prev_ts := 0, prev_floor := some "G",
    prev_h := .val 100, prev_door := some false }

def dacc6 : DAcc :=
  { door := [], idle := [], prev_ts := 0, prev_floor := some "G",
    prev_h := .val 100, prev_door := some false }

def lcW1 : LCWorld := processPackOutSample emptyLCWorld "dev" 1000 "floor_label=G"

def lcW2 : LCWorld :=
  processPackOutSample emptyLCWorld "dev" 1000 "door_open=0|height_mm=100|floor_label=G"

def failDev7 : JDev :=
  { id := some "d1", name := "dev1", fetch := .error "timeseries fetch failed", writeOk := true }

def skipDev7 : JDev :=
  { id := some "d2", name := "dev2", fetch := .ok [(0, "height_mm=100")], writeOk := true }

/-- A device with a valid two-sample window whose telemetry write-back
(`write_stats` → `tb_save_ts.raise_for_status`) raises. -/
def writeFailDev7 : JDev :=
  { id := some "d3", name := "dev3",
    fetch := .ok [(0, "door_open=0|height_mm=100|floor_label=G"),
                  (1000, "door_open=0|height_mm=100|floor_label=G")],
    writeOk := false }

def jacc0 : JAcc := { total := 0, processed := 0, skipped := 0, results := [] }

def packBad : String := "\x7b\"height_mm\": \"x\", \"b\": \"|height_mm=5|x\"\x7d"

/-! ## Helper lemmas -/
theorem dictGet_dictSet_self {κ α : Type} [DecidableEq κ] (d : List (κ × α)) (k : κ) (v : α) :
    dictGet (dictSet d k v) k = some v := by
  induction d with
  | nil => simp [dictGet, dictSet]
  | cons hd t ih =>
    obtain ⟨k₀, v₀⟩ := hd
    by_cases h : k₀ = k <;> simp [dictGet, dictSet, h, ih]

theorem dictGet_dictSet_ne {κ α : Type} [DecidableEq κ] (d : List (κ × α)) (k k' : κ) (v : α)
    (h : k' ≠ k) : dictGet (dictSet d k v) k' = dictGet d k' := by
  induction d with
  | nil => simp [dictGet, dictSet, Ne.symm h]
  | cons hd t ih =>
    obtain ⟨k₀, v₀⟩ := hd
    by_cases h₀ : k₀ = k
    · subst h₀
      simp [dictGet, dictSet, Ne.symm h]
    · simp [dictGet, dictSet, h₀, ih]

theorem dictSet_dictSet_self {κ α : Type} [DecidableEq κ] (d : List (κ × α)) (k : κ) (v v' : α) :
    dictSet (dictSet d k v) k v' = dictSet d k v' := by
  induction d with
  | nil => simp [dictSet]
  | cons hd t ih =>
    obtain ⟨k₀, v₀⟩ := hd
    by_cases h : k₀ = k <;> simp [dictSet, h, ih]

theorem doorKey_ne_idleKey (date dev : String) : doorKey date dev ≠ idleKey date dev := by
  intro h
  have h2 := congrArg (fun s : String => s.data.getLast?) h
  simp only [doorKey, idleKey, String.data_append] at h2
  rw [List.getLast?_append_of_ne_nil, List.getLast?_append_of_ne_nil] at h2
  · simp at h2
  · simp
  · simp

theorem hGet_hinc_same (m : List (String × List (String × Int))) (key f : String) (d : Int) :
    dictGetD ((dictGet (hinc m key f d) key).getD []) f 0
      = dictGetD ((dictGet m key).getD []) f 0 + d := by
  simp [hinc, dictGetD, dictGet_dictSet_self]

theorem hGet_hinc_same_key_other_field (m : List (String × List (String × Int)))
    (key f f' : String) (d : Int) (h : f' ≠ f) :
    dictGetD ((dictGet (hinc m key f d) key).getD []) f' 0
      = dictGetD ((dictGet m key).getD []) f' 0 := by
  simp [hinc, dictGetD, dictGet_dictSet_self, dictGet_dictSet_ne _ _ _ _ h]

theorem hGet_hinc_other_key (m : List (String × List (String × Int)))
    (key key' f f' : String) (d : Int) (h : key' ≠ key) :
    dictGetD ((dictGet (hinc m key f d) key').getD []) f' 0
      = dictGetD ((dictGet m key').getD []) f' 0 := by
  simp [hinc, dictGetD, dictGet_dictSet_ne _ _ _ _ h]

/-! ## Claims -/

/-- C1: bucket alarm debounce.  For a device/key bucket list that starts
empty, three threshold-exceeding observations whose heights are within
`±ZONE_MM` (50 mm) of the first observation's height emit no alarm on the
first two and exactly one alarm on the third, which also consumes (removes)
the bucket; a fourth threshold-exceeding observation then opens a fresh
bucket with count 1 and does not immediately re-fire. -/
theorem C1_bucket_debounce (v1 v2 v3 v4 thr h1 h2 h3 h4 : ℚ)
    (hv1 : v1 > thr) (hv2 : v2 > thr) (hv3 : v3 > thr) (hv4 : v4 > thr)
    (hz2 : |h1 - h2| ≤ ZONE_MM) (hz3 : |h1 - h3| ≤ ZONE_MM) :
    observeBucketed [] (some v1) thr (some h1) = ([{ center := h1, count := 1 }], false) ∧
    observeBucketed [{ center := h1, count := 1 }] (some v2) thr (some h2)
      = ([{ center := h1, count := 2 }], false) ∧
    observeBucketed [{ center := h1, count := 2 }] (some v3) thr (some h3) = ([], true) ∧
    observeBucketed [] (some v4) thr (some h4) = ([{ center := h4, count := 1 }], false) := by
  refine ⟨?_, ?_, ?_, ?_⟩ <;>
    simp [observeBucketed, checkBucketAndTrigger, bucketStep, BUCKET_COUNT_THRESHOLD,
      hv1, hv2, hv3, hv4, hz2, hz3]

/-- C1 witness: value 10 against threshold 5, heights 100/120/80/100. -/
theorem C1_bucket_debounce_witness :
    observeBucketed [] (some 10) 5 (some 100) = ([{ center := 100, count := 1 }], false) ∧
    observeBucketed [{ center := 100, count := 1 }] (some 10) 5 (some 120)
      = ([{ center := 100, count := 2 }], false) ∧
    observeBucketed [{ center := 100, count := 2 }] (some 10) 5 (some 80) = ([], true) ∧
    observeBucketed [] (some 10) 5 (some 100) = ([{ center := 100, count := 1 }], false) :=
  C1_bucket_debounce 10 10 10 10 5 100 120 80 100
    (by with_unfolding_all decide) (by with_unfolding_all decide)
    (by with_unfolding_all decide) (by with_unfolding_all decide)
    (by with_unfolding_all decide) (by with_unfolding_all decide)

/-- C2: replay idempotence of the live aggregator.  A call of
`process_pack_out_sample` whose timestamp is not greater than the stored
last-seen timestamp leaves the whole world — door-open counters, idle
counters, and the per-device state — unchanged. -/
theorem C2_replay_idempotent (w : LCWorld) (dev : String) (ts_ms : Int) (pack : String)
    (h : ts_ms ≤ lastTs w dev) :
    processPackOutSample w dev ts_ms pack = w := by
  unfold processPackOutSample
  by_cases h1 : ((parsePackOut pack).1.isNone && (parsePackOut pack).2.1.isNan
      && (parsePackOut pack).2.2.isNone) = true
  · simp [h1]
  · simp [h1, h]

/-- C2 witness: a device last seen at ts 5000 replayed at ts 3000. -/
theorem C2_replay_idempotent_witness :
    (3000 : Int) ≤ lastTs lcWorldSeen "dev" ∧
    processPackOutSample lcWorldSeen "dev" 3000 "door_open=OPEN|height_mm=100" = lcWorldSeen :=
  ⟨by with_unfolding_all decide,
   C2_replay_idempotent lcWorldSeen "dev" 3000 "door_open=OPEN|height_mm=100"
     (by with_unfolding_all decide)⟩

/-- C9: the `/check_alarm/` endpoint emits the CRITICAL "Floor Mismatch
Alarm" iff the resolved door state is open, a floor index is provided, the
device id resolves and the boundary fetch succeeds (so the boundaries are
available), the index is within `[0, len(floor_boundaries))`, a height is
present, and the height deviates from the boundary entry at that index (the
floor's centre height; `b.getD i.toNat 0` is exactly `b[i]` under the bound)
by strictly more than `TOLERANCE_MM` (10 mm).  Out-of-range indices or
missing data never alarm. -/
theorem C9_floor_mismatch_iff (deviceId : Option String) (bs : Option (List ℚ))
    (height : Option ℚ) (cfi : Option Int) (doorIn storedDoor : Option Bool) :
    checkAlarmFloorMismatch deviceId bs height cfi doorIn storedDoor = true ↔
      doorIn.getD (storedDoor.getD false) = true ∧
      ∃ i, cfi = some i ∧ deviceId.isSome = true ∧
        ∃ b, bs = some b ∧ 0 ≤ i ∧ i < (b.length : Int) ∧
          ∃ hq, height = some hq ∧ |hq - b.getD i.toNat 0| > TOLERANCE_MM := by
  unfold checkAlarmFloorMismatch floorMismatchDetected
  cases doorIn <;> cases storedDoor <;> cases cfi <;> cases deviceId <;> cases bs <;>
    cases height <;>
    simp_all [not_lt, not_le]
  all_goals
    intro _
    split_ifs with hif
    · constructor
      · simp
      · rintro ⟨ha, hb, -⟩
        rcases hif with hc | hc <;> omega
    · push_neg at hif
      simp [hif.1, hif.2]

theorem dictGet_filter_ne {α : Type} (d : List (String × α)) (dev : String) :
    dictGet (d.filter (fun kv => kv.1 ≠ dev)) dev = none := by
  induction d with
  | nil => rfl
  | cons hd t ih =>
    simp only [ne_eq, decide_not] at ih ⊢
    by_cases h : hd.1 = dev
    · simp [List.filter_cons, h, ih]
    · simp [List.filter_cons, h, dictGet, ih]

theorem processDoorAlarm_closed (w : DoorW) (dev : String) (now : ℚ) :
    processDoorAlarm w dev (some false) now
      = ({ doorState := dictSet w.doorState dev false,
           openSince := w.openSince.filter (fun kv => kv.1 ≠ dev) }, false) := by
  simp [processDoorAlarm]

theorem processDoorAlarm_open_first (w : DoorW) (dev : String) (now : ℚ)
    (h : dictGet w.openSince dev = none) :
    processDoorAlarm w dev (some true) now
      = ({ doorState := dictSet w.doorState dev true,
           openSince := dictSet w.openSince dev now }, false) := by
  simp [processDoorAlarm, h]

theorem processDoorAlarm_open_quiet (w : DoorW) (dev : String) (now t0 : ℚ)
    (h : dictGet w.openSince dev = some t0) (hlt : now - t0 < DOOR_OPEN_THRESHOLD_SEC) :
    processDoorAlarm w dev (some true) now
      = ({ doorState := dictSet w.doorState dev true, openSince := w.openSince }, false) := by
  simp [processDoorAlarm, h, not_le.2 hlt]

theorem processDoorAlarm_open_fire (w : DoorW) (dev : String) (now t0 : ℚ)
    (h : dictGet w.openSince dev = some t0) (hge : now - t0 ≥ DOOR_OPEN_THRESHOLD_SEC) :
    processDoorAlarm w dev (some true) now
      = ({ doorState := dictSet w.doorState dev true,
           openSince := dictSet w.openSince dev now }, true) := by
  simp [processDoorAlarm, h, hge]

theorem runDoor_quiet (dev : String) (t0 : ℚ) (ts : List ℚ) :
    ∀ w : DoorW, dictGet w.openSince dev = some t0 →
      (∀ t ∈ ts, t - t0 < DOOR_OPEN_THRESHOLD_SEC) →
      (runDoor w dev (ts.map (fun t => (t, some true)))).2 = 0 ∧
      (runDoor w dev (ts.map (fun t => (t, some true)))).1.openSince = w.openSince := by
  induction ts with
  | nil => intro w _ _; exact ⟨rfl, rfl⟩
  | cons t rest ih =>
    intro w h hall
    have hstep := processDoorAlarm_open_quiet w dev t t0 h (hall t (by simp))
    have hrec := ih { doorState := dictSet w.doorState dev true, openSince := w.openSince }
      h (fun x hx => hall x (by simp [hx]))
    simp [runDoor, hstep]
    exact hrec

theorem runDoor_append (dev : String) (l1 l2 : List (ℚ × Option Bool)) :
    ∀ w : DoorW,
      runDoor w dev (l1 ++ l2)
        = ((runDoor (runDoor w dev l1).1 dev l2).1,
           (runDoor w dev l1).2 + (runDoor (runDoor w dev l1).1 dev l2).2) := by
  induction l1 with
  | nil => intro w; simp [runDoor]
  | cons x rest ih =>
    intro w
    simp [runDoor, ih]
    omega

/-- C4: door-open timer.  (i) A call reporting the door closed never fires
and clears the open-since marker; (ii) for a door reported open continuously
(first report at `t0`, later reports all with observed duration below the
15-second threshold) zero alarms fire and the marker stays at `t0`;
(iii) appending one further open report at/after the threshold crossing gives
exactly one alarm over the whole run, and the marker is reset to the firing
time; (iv) after such a reset the duration must exceed the window again
before re-firing (a below-threshold open report does not fire). -/
theorem C4_door_open_timer :
    (∀ (w : DoorW) (dev : String) (now : ℚ),
       (processDoorAlarm w dev (some false) now).2 = false ∧
       dictGet (processDoorAlarm w dev (some false) now).1.openSince dev = none) ∧
    (∀ (w : DoorW) (dev : String) (t0 : ℚ) (ts : List ℚ),
       dictGet w.openSince dev = none →
       (∀ t ∈ ts, t - t0 < DOOR_OPEN_THRESHOLD_SEC) →
       (runDoor w dev ((t0 :: ts).map (fun t => (t, some true)))).2 = 0 ∧
       dictGet (runDoor w dev ((t0 :: ts).map (fun t => (t, some true)))).1.openSince dev
         = some t0) ∧
    (∀ (w : DoorW) (dev : String) (t0 : ℚ) (ts : List ℚ) (tk : ℚ),
       dictGet w.openSince dev = none →
       (∀ t ∈ ts, t - t0 < DOOR_OPEN_THRESHOLD_SEC) →
       tk - t0 ≥ DOOR_OPEN_THRESHOLD_SEC →
       (runDoor w dev ((t0 :: ts ++ [tk]).map (fun t => (t, some true)))).2 = 1 ∧
       dictGet (runDoor w dev ((t0 :: ts ++ [tk]).map (fun t => (t, some true)))).1.openSince dev
         = some tk) ∧
    (∀ (w : DoorW) (dev : String) (tk t' : ℚ),
       dictGet w.openSince dev = some tk →
       t' - tk < DOOR_OPEN_THRESHOLD_SEC →
       (processDoorAlarm w dev (some true) t').2 = false) := by
  refine ⟨?_, ?_, ?_, ?_⟩
  · intro w dev now
    rw [processDoorAlarm_closed]
    exact ⟨rfl, dictGet_filter_ne _ _⟩
  · intro w dev t0 ts hnone hall
    have hfirst := processDoorAlarm_open_first w dev t0 hnone
    have hq := runDoor_quiet dev t0 ts
      { doorState := dictSet w.doorState dev true, openSince := dictSet w.openSince dev t0 }
      (dictGet_dictSet_self _ _ _) hall
    constructor
    · simp [runDoor, hfirst]
      exact hq.1
    · simp [runDoor, hfirst]
      rw [hq.2]
      exact dictGet_dictSet_self _ _ _
  · intro w dev t0 ts tk hnone hall hk
    have hfirst := processDoorAlarm_open_first w dev t0 hnone
    set w1 : DoorW :=
      { doorState := dictSet w.doorState dev true, openSince := dictSet w.openSince dev t0 }
      with hw1
    have hq := runDoor_quiet dev t0 ts w1 (dictGet_dictSet_self _ _ _) hall
    have hsince2 : dictGet (runDoor w1 dev (ts.map (fun t => (t, some true)))).1.openSince dev
        = some t0 := by
      rw [hq.2]
      exact dictGet_dictSet_self _ _ _
    have hfire := processDoorAlarm_open_fire
      (runDoor w1 dev (ts.map (fun t => (t, some true)))).1 dev tk t0 hsince2 hk
    have hmap : (t0 :: ts ++ [tk]).map (fun t => (t, some true))
        = ((t0 :: ts).map (fun t => ((t : ℚ), (some true : Option Bool))))
            ++ [(tk, some true)] := by
      simp
    rw [hmap, runDoor_append]
    constructor
    · simp [runDoor, hfirst, hq.1, hfire]
    · simp [runDoor, hfirst, hfire]
      exact dictGet_dictSet_self _ _ _
  · intro w dev tk t' hsince hlt
    rw [processDoorAlarm_open_quiet w dev t' tk hsince hlt]

/-- C4 witness: device "L1", open reports at 0/5/10 (quiet), firing at 16,
quiet again at 20. -/
theorem C4_door_open_timer_witness :
    ((processDoorAlarm emptyDoorW "L1" (some false) 3).2 = false ∧
     dictGet (processDoorAlarm emptyDoorW "L1" (some false) 3).1.openSince "L1" = none) ∧
    ((runDoor emptyDoorW "L1" ((0 :: [5, 10]).map (fun t => (t, some true)))).2 = 0 ∧
     dictGet (runDoor emptyDoorW "L1"
       ((0 :: [5, 10]).map (fun t => (t, some true)))).1.openSince "L1" = some 0) ∧
    ((runDoor emptyDoorW "L1" ((0 :: [5, 10] ++ [16]).map (fun t => (t, some true)))).2 = 1 ∧
     dictGet (runDoor emptyDoorW "L1"
       ((0 :: [5, 10] ++ [16]).map (fun t => (t, some true)))).1.openSince "L1" = some 16) ∧
    (processDoorAlarm { doorState := [("L1", true)], openSince := [("L1", 16)] }
       "L1" (some true) 20).2 = false :=
  ⟨C4_door_open_timer.1 emptyDoorW "L1" 3,
   C4_door_open_timer.2.1 emptyDoorW "L1" 0 [5, 10] rfl (by with_unfolding_all decide),
   C4_door_open_timer.2.2.1 emptyDoorW "L1" 0 [5, 10] 16 rfl
     (by with_unfolding_all decide) (by with_unfolding_all decide),
   C4_door_open_timer.2.2.2 { doorState := [("L1", true)], openSince := [("L1", 16)] }
     "L1" 16 20 rfl (by with_unfolding_all decide)⟩

set_option maxRecDepth 8000 in
/-- C5: daily window idle accumulation.  In the pairwise walk of
`compute_window_stats_for_device`, for a consecutive pair whose heights are
both readings, the elapsed gap is added to the floor's idle milliseconds
exactly when both samples report the door closed and `|Δheight| ≤ thr`
(50 mm by default) — and the idle map is untouched otherwise; and the
spec's synthetic series (one door-open/close cycle, then 120 s of
closed-door motionless samples) yields `idle_sec["G"] = 120` and
`door_opens["G"] = 1`.  (A pair with a missing height is outside the claim's
`|Δheight|` condition; the code treats it as non-moving.) -/
theorem C5_daily_idle_window :
    (∀ (thr : ℚ) (acc : DAcc) (ts : Int) (fl : Option String) (p x : ℚ) (dopen : Option Bool),
       acc.prev_h = PFloat.val p →
       (dopen = some false ∧ acc.prev_door = some false ∧ |x - p| ≤ thr →
         (dailyStep thr acc (ts, fl, PFloat.val x, dopen)).idle
           = dictSet acc.idle (orLabel fl (orLabel acc.prev_floor "UNKNOWN"))
               (dictGetD acc.idle (orLabel fl (orLabel acc.prev_floor "UNKNOWN")) 0
                 + (ts - acc.prev_ts))) ∧
       (¬ (dopen = some false ∧ acc.prev_door = some false ∧ |x - p| ≤ thr) →
         (dailyStep thr acc (ts, fl, PFloat.val x, dopen)).idle = acc.idle)) ∧
    computeStatsCore
      [(0, "door_open=0|height_mm=100|floor_label=G"),
       (10000, "door_open=1|height_mm=100|floor_label=G"),
       (20000, "door_open=0|height_mm=100|floor_label=G"),
       (140000, "door_open=0|height_mm=100|floor_label=G")]
      140001 MOVEMENT_THRESHOLD_MM
    = some { date := "1970-01-01", door_opens := [("G", 1)], idle_sec := [("G", 120)] } := by
  constructor
  · intro thr acc ts fl p x dopen hp
    constructor
    · rintro ⟨h1, h2, h3⟩
      subst h1
      simp [dailyStep, beq_iff_eq, h2, hp, movement, not_lt.mpr h3]
    · intro hn
      have hb : ((dopen == some false && acc.prev_door == some false)
          && !movement acc.prev_h (PFloat.val x) thr) = false := by
        rw [hp]
        by_cases h1 : dopen = some false
        · by_cases h2 : acc.prev_door = some false
          · have h3 : ¬ (|x - p| ≤ thr) := fun hc => hn ⟨h1, h2, hc⟩
            simp [h1, h2, beq_iff_eq, movement, not_le.mp h3]
          · simp [beq_iff_eq, h2]
        · simp [beq_iff_eq, h1]
      simp [dailyStep, hb]
  · with_unfolding_all rfl

/-- C5 witness: a closed-door motionless pair accumulates its 5000 ms gap;
a door-open pair leaves the idle map unchanged. -/
theorem C5_daily_idle_window_witness :
    ((dailyStep 50 dacc0 (5000, some "G", PFloat.val 100, some false)).idle
       = dictSet dacc0.idle (orLabel (some "G") (orLabel dacc0.prev_floor "UNKNOWN"))
           (dictGetD dacc0.idle (orLabel (some "G") (orLabel dacc0.prev_floor "UNKNOWN")) 0
             + (5000 - dacc0.prev_ts))) ∧
    ((dailyStep 50 dacc0 (5000, some "G", PFloat.val 100, some true)).idle = dacc0.idle) :=
  ⟨(C5_daily_idle_window.1 50 dacc0 5000 (some "G") 100 100 (some false) rfl).1
     ⟨rfl, rfl, by with_unfolding_all decide⟩,
   (C5_daily_idle_window.1 50 dacc0 5000 (some "G") 100 100 (some true) rfl).2
     (by simp)⟩

/-- C6 (amended): door-open count edge semantics.  In the daily window walk
the per-floor count increments exactly when the previous sample reported the
door closed and the current one reports it open, and never otherwise (open
or unknown previous state never increments).  In the live aggregator the
previous door state is read back from the stored state, where
"never reported" is stored as `""` and reads back as closed; hence the count
increments exactly when stored state exists with a non-open stored door
(`lastDoorBool = some false`, which covers both closed and stored-unknown)
and the sample reports open — it never increments when the previous stored
door was open or when the device has no stored state at all. -/
theorem C6_door_edge_semantics :
    (∀ (thr : ℚ) (acc : DAcc) (s : DSample) (f : String),
       dictGetD (dailyStep thr acc s).door f 0
         = dictGetD acc.door f 0
           + (if f = orLabel s.2.1 (orLabel acc.prev_floor "UNKNOWN")
                ∧ acc.prev_door = some false ∧ s.2.2.2 = some true then 1 else 0)) ∧
    (∀ (w : LCWorld) (dev : String) (ts : Int) (pack : String)
       (fl : Option String) (h : PFloat) (dopen : Option Bool) (f : String),
       parsePackOut pack = (fl, h, dopen) →
       (fl.isNone && h.isNan && dopen.isNone) = false →
       lastTs w dev < ts →
       liveDoorCount (processPackOutSample w dev ts pack) (localDateStr ts) dev f
         = liveDoorCount w (localDateStr ts) dev f
           + (if f = orLabel fl (orLabel (lastFloor w dev) "UNKNOWN")
                ∧ lastDoorBool w dev = some false ∧ dopen = some true then 1 else 0)) := by
  constructor
  · intro thr acc s f
    obtain ⟨ts, fl, h, dopen⟩ := s
    by_cases hA : (acc.prev_door == some false && dopen == some true) = true
    · have hand := (Bool.and_eq_true _ _).mp hA
      have h1 : acc.prev_door = some false := beq_iff_eq.mp hand.1
      have h2 : dopen = some true := beq_iff_eq.mp hand.2
      simp only [dailyStep, hA, if_true]
      by_cases hf : f = orLabel fl (orLabel acc.prev_floor "UNKNOWN")
      · subst hf
        simp only [dictGetD, dictGet_dictSet_self, Option.getD_some]
        simp [h1, h2]
      · simp only [dictGetD, dictGet_dictSet_ne _ _ _ _ hf]
        rw [if_neg (fun hc => hf hc.1), add_zero]
    · simp only [Bool.not_eq_true] at hA
      simp only [dailyStep, hA, Bool.false_eq_true, if_false]
      have hcond : ¬ (f = orLabel fl (orLabel acc.prev_floor "UNKNOWN")
          ∧ acc.prev_door = some false ∧ dopen = some true) := by
        rintro ⟨-, hx1, hx2⟩
        simp [hx1, hx2] at hA
      rw [if_neg hcond, add_zero]
  · intro w dev ts pack fl h dopen f hp hnz hts
    unfold processPackOutSample
    rw [hp]
    simp only [hnz, Bool.false_eq_true, if_false, if_neg (not_le.mpr hts)]
    unfold liveDoorCount
    by_cases hA : (lastDoorBool w dev == some false && dopen == some true) = true
    · have hand := (Bool.and_eq_true _ _).mp hA
      have hldb : lastDoorBool w dev = some false := beq_iff_eq.mp hand.1
      have hdt : dopen = some true := beq_iff_eq.mp hand.2
      have hB : (dopen == some false && lastDoorBool w dev == some false &&
          !movement (lastH w dev) h LC_MOVEMENT_THRESHOLD_MM) = false := by
        simp [hdt]
      simp only [hA, if_true, hB, Bool.false_eq_true, if_false]
      by_cases hf : f = orLabel fl (orLabel (lastFloor w dev) "UNKNOWN")
      · subst hf
        rw [hGet_hinc_same, if_pos ⟨rfl, hldb, hdt⟩]
      · rw [hGet_hinc_same_key_other_field _ _ _ _ _ hf,
          if_neg (fun hc => hf hc.1), add_zero]
    · simp only [Bool.not_eq_true] at hA
      simp only [hA, Bool.false_eq_true, if_false]
      have hcond : ¬ (f = orLabel fl (orLabel (lastFloor w dev) "UNKNOWN")
          ∧ lastDoorBool w dev = some false ∧ dopen = some true) := by
        rintro ⟨-, h1, h2⟩
        simp [h1, h2] at hA
      rw [if_neg hcond, add_zero]
      by_cases hC : (dopen == some false && lastDoorBool w dev == some false &&
          !movement (lastH w dev) h LC_MOVEMENT_THRESHOLD_MM) = true
      · simp only [hC, if_true, if_pos (sub_pos.mpr hts)]
        rw [hGet_hinc_other_key _ _ _ _ _ _ (doorKey_ne_idleKey _ _)]
      · simp only [Bool.not_eq_true] at hC
        simp only [hC, Bool.false_eq_true, if_false]

set_option maxRecDepth 8000 in
/-- C6 counterexample: after a first sample that reports no door state
(`(parsePackOut "floor_label=G").2.2 = none`, stored as `""`, read back as
`some false`), a second sample reporting the door open increments the floor's
count to 1 — the claim as stated requires no increment when the previous
known door state is unknown. -/
theorem C6_counterexample :
    liveDoorCount (processPackOutSample lcW1 "dev" 2000 "door_open=OPEN")
      "1970-01-01" "dev" "G" = 1 ∧
    lastDoorBool lcW1 "dev" = some false ∧
    (parsePackOut "floor_label=G").2.2 = none := by
  refine ⟨?_, ?_, ?_⟩ <;> with_unfolding_all rfl

set_option maxRecDepth 8000 in
/-- C6 witness: a closed→open daily pair increments floor "G"; the live
instance of the counterexample trace matches the characterization. -/
theorem C6_door_edge_semantics_witness :
    (dictGetD (dailyStep 50 dacc6 (5000, some "G", PFloat.val 100, some true)).door "G" 0
       = dictGetD dacc6.door "G" 0
         + (if "G" = orLabel (some "G") (orLabel dacc6.prev_floor "UNKNOWN")
              ∧ dacc6.prev_door = some false ∧ some true = some true then 1 else 0)) ∧
    (parsePackOut "door_open=OPEN" = (none, PFloat.nan, some true) ∧
     liveDoorCount (processPackOutSample lcW1 "dev" 2000 "door_open=OPEN")
         (localDateStr 2000) "dev" "G"
       = liveDoorCount lcW1 (localDateStr 2000) "dev" "G"
         + (if "G" = orLabel none (orLabel (lastFloor lcW1 "dev") "UNKNOWN")
              ∧ lastDoorBool lcW1 "dev" = some false ∧ (some true : Option Bool) = some true
            then 1 else 0)) :=
  ⟨C6_door_edge_semantics.1 50 dacc6 (5000, some "G", PFloat.val 100, some true) "G",
   by with_unfolding_all rfl,
   C6_door_edge_semantics.2 lcW1 "dev" 2000 "door_open=OPEN" none PFloat.nan (some true) "G"
     (by with_unfolding_all rfl) (by with_unfolding_all rfl) (by with_unfolding_all decide)⟩

/-- C3 (amended): live aggregator idle accumulation.  Between two consecutive
accepted samples the elapsed milliseconds are added to the floor's idle
counter exactly when the new sample reports the door closed, the stored door
state reads back closed, and no movement above 50 mm occurred — a sample
with the door open contributes nothing to the idle counters (door-open does
NOT count as idle in this path; the spec's `isIdle = idle OR door open`
definition is not what `process_pack_out_sample` implements). -/
theorem C3_live_idle_semantics :
    (∀ (w : LCWorld) (dev : String) (ts : Int) (pack : String)
       (fl : Option String) (h : PFloat) (dopen : Option Bool),
       parsePackOut pack = (fl, h, dopen) →
       (fl.isNone && h.isNan && dopen.isNone) = false →
       lastTs w dev < ts →
       dopen = some false →
       lastDoorBool w dev = some false →
       movement (lastH w dev) h LC_MOVEMENT_THRESHOLD_MM = false →
       liveIdleMs (processPackOutSample w dev ts pack) (localDateStr ts) dev
           (orLabel fl (orLabel (lastFloor w dev) "UNKNOWN"))
         = liveIdleMs w (localDateStr ts) dev (orLabel fl (orLabel (lastFloor w dev) "UNKNOWN"))
           + (ts - lastTs w dev)) ∧
    (∀ (w : LCWorld) (dev : String) (ts : Int) (pack : String)
       (fl : Option String) (h : PFloat) (dopen : Option Bool) (f : String),
       parsePackOut pack = (fl, h, dopen) →
       (fl.isNone && h.isNan && dopen.isNone) = false →
       lastTs w dev < ts →
       ¬ (dopen = some false ∧ lastDoorBool w dev = some false
           ∧ movement (lastH w dev) h LC_MOVEMENT_THRESHOLD_MM = false) →
       liveIdleMs (processPackOutSample w dev ts pack) (localDateStr ts) dev f
         = liveIdleMs w (localDateStr ts) dev f) := by
  constructor
  · intro w dev ts pack fl h dopen hp hnz hts hdo hldb hmov
    unfold processPackOutSample
    rw [hp]
    simp only [hnz, Bool.false_eq_true, if_false, if_neg (not_le.mpr hts)]
    unfold liveIdleMs
    have hdoor : (lastDoorBool w dev == some false && dopen == some true) = false := by
      simp [hdo]
    have hidle : (dopen == some false && lastDoorBool w dev == some false &&
        !movement (lastH w dev) h LC_MOVEMENT_THRESHOLD_MM) = true := by
      simp [hdo, hldb, hmov]
    simp only [hdoor, Bool.false_eq_true, if_false, hidle, if_true,
      if_pos (sub_pos.mpr hts)]
    rw [hGet_hinc_same]
  · intro w dev ts pack fl h dopen f hp hnz hts hn
    unfold processPackOutSample
    rw [hp]
    simp only [hnz, Bool.false_eq_true, if_false, if_neg (not_le.mpr hts)]
    unfold liveIdleMs
    have hidle : (dopen == some false && lastDoorBool w dev == some false &&
        !movement (lastH w dev) h LC_MOVEMENT_THRESHOLD_MM) = false := by
      by_cases h1 : dopen = some false
      · by_cases h2 : lastDoorBool w dev = some false
        · have h3 : movement (lastH w dev) h LC_MOVEMENT_THRESHOLD_MM = true := by
            rcases Bool.eq_false_or_eq_true
              (movement (lastH w dev) h LC_MOVEMENT_THRESHOLD_MM) with hc | hc
            · exact hc
            · exact absurd ⟨h1, h2, hc⟩ hn
          simp [h3]
        · simp [h2]
      · simp [h1]
    simp only [hidle, Bool.false_eq_true, if_false]
    by_cases hA : (lastDoorBool w dev == some false && dopen == some true) = true
    · simp only [hA, if_true]
      rw [hGet_hinc_other_key _ _ _ _ _ _ (Ne.symm (doorKey_ne_idleKey _ _))]
    · simp only [Bool.not_eq_true] at hA
      simp only [hA, Bool.false_eq_true, if_false]

set_option maxRecDepth 8000 in
/-- C3 counterexample: two consecutive accepted samples that both report the
door open accumulate zero idle milliseconds, where the claim requires the
1000 ms gap to be accumulated. -/
theorem C3_counterexample :
    (parsePackOut "door_open=OPEN|height_mm=100|floor_label=G").2.2 = some true ∧
    liveIdleMs
      (processPackOutSample
        (processPackOutSample emptyLCWorld "dev" 1000 "door_open=OPEN|height_mm=100|floor_label=G")
        "dev" 2000 "door_open=OPEN|height_mm=100|floor_label=G")
      "1970-01-01" "dev" "G" = 0 := by
  refine ⟨?_, ?_⟩ <;> with_unfolding_all rfl

set_option maxRecDepth 8000 in
/-- C3 witness: a closed/closed motionless pair accumulates its 1000 ms gap;
a closed/open pair leaves the idle counter unchanged. -/
theorem C3_live_idle_semantics_witness :
    (liveIdleMs
        (processPackOutSample lcW2 "dev" 2000 "door_open=0|height_mm=100|floor_label=G")
        (localDateStr 2000) "dev"
        (orLabel (some "G") (orLabel (lastFloor lcW2 "dev") "UNKNOWN"))
      = liveIdleMs lcW2 (localDateStr 2000) "dev"
          (orLabel (some "G") (orLabel (lastFloor lcW2 "dev") "UNKNOWN"))
        + (2000 - lastTs lcW2 "dev")) ∧
    (liveIdleMs
        (processPackOutSample lcW2 "dev" 2000 "door_open=OPEN|height_mm=100|floor_label=G")
        (localDateStr 2000) "dev" "G"
      = liveIdleMs lcW2 (localDateStr 2000) "dev" "G") :=
  ⟨C3_live_idle_semantics.1 lcW2 "dev" 2000 "door_open=0|height_mm=100|floor_label=G"
     (some "G") (PFloat.val 100) (some false)
     (by with_unfolding_all rfl) (by with_unfolding_all decide)
     (by with_unfolding_all decide) rfl
     (by with_unfolding_all rfl) (by with_unfolding_all rfl),
   C3_live_idle_semantics.2 lcW2 "dev" 2000 "door_open=OPEN|height_mm=100|floor_label=G"
     (some "G") (PFloat.val 100) (some true) "G"
     (by with_unfolding_all rfl) (by with_unfolding_all decide)
     (by with_unfolding_all decide) (by simp)⟩

/-- C7 counterexample: a run over a single device whose timeseries fetch
raises — and likewise a run over a single device whose statistics write
raises — yields a summary whose only counters are `total_devices = 1`,
`processed = 0` and `skipped_no_data = 0` with no results — the `except`
branch of `run_once_over_window` only logs, so neither failure is recorded
in any failure count in the returned summary, contrary to the claim. -/
theorem C7_counterexample :
    runOnceOverWindow [{ devices := [failDev7], hasNext := false }] 86400000
      = { total := 1, processed := 0, skipped := 0, results := [] } ∧
    runOnceOverWindow [{ devices := [writeFailDev7], hasNext := false }] 86400000
      = { total := 1, processed := 0, skipped := 0, results := [] } := by
  constructor <;> with_unfolding_all rfl

/-- C7 (amended): failure isolation of the daily job.  A device whose
computation raises — a failing timeseries fetch — or whose statistics write
(`write_stats`/`tb_save_ts` raising) fails is caught and logged only: it
increments `total_devices` and no other counter (there is no failure count
in the summary and no result row is appended); processing continues with the
remaining devices of the page, pagination continues to the next page exactly
when `hasNext` is true and stops when it is false; a device with fewer than
2 samples in the window is counted as `skipped_no_data`, not as an error. -/
theorem C7_failure_isolation :
    (∀ (end_ms : Int) (thr : ℚ) (acc : JAcc) (d : JDev) (e i : String),
        d.id = some i → d.fetch = .error e →
        devStep end_ms thr acc d = { acc with total := acc.total + 1 }) ∧
    (∀ (end_ms : Int) (thr : ℚ) (acc : JAcc) (d : JDev) (i : String)
        (series : List (Int × String)) (stats : WindowStats),
        d.id = some i → d.fetch = .ok series →
        computeStatsCore series end_ms thr = some stats →
        d.writeOk = false →
        devStep end_ms thr acc d = { acc with total := acc.total + 1 }) ∧
    (∀ (end_ms : Int) (thr : ℚ) (acc : JAcc) (d : JDev) (i : String)
        (series : List (Int × String)),
        d.id = some i → d.fetch = .ok series → series.length < 2 →
        devStep end_ms thr acc d
          = { acc with total := acc.total + 1, skipped := acc.skipped + 1 }) ∧
    (∀ (end_ms : Int) (thr : ℚ) (acc : JAcc) (ds : List JDev) (d : JDev) (e i : String),
        d.id = some i → d.fetch = .error e →
        (d :: ds).foldl (devStep end_ms thr) acc
          = ds.foldl (devStep end_ms thr) { acc with total := acc.total + 1 }) ∧
    (∀ (end_ms : Int) (thr : ℚ) (p : JPage) (rest : List JPage) (acc : JAcc),
        p.devices ≠ [] → p.hasNext = true →
        runPages end_ms thr (p :: rest) acc
          = runPages end_ms thr rest (p.devices.foldl (devStep end_ms thr) acc)) ∧
    (∀ (end_ms : Int) (thr : ℚ) (p : JPage) (rest : List JPage) (acc : JAcc),
        p.devices ≠ [] → p.hasNext = false →
        runPages end_ms thr (p :: rest) acc = p.devices.foldl (devStep end_ms thr) acc) := by
  refine ⟨?_, ?_, ?_, ?_, ?_, ?_⟩
  · intro end_ms thr acc d e i hid hf
    simp [devStep, computeWindowStatsForDevice, hid, hf]
  · intro end_ms thr acc d i series stats hid hf hstats hw
    simp [devStep, computeWindowStatsForDevice, hid, hf, hstats, hw]
  · intro end_ms thr acc d i series hid hf hlen
    simp [devStep, computeWindowStatsForDevice, computeStatsCore, hid, hf, hlen]
  · intro end_ms thr acc ds d e i hid hf
    rw [List.foldl_cons]
    congr 1
    simp [devStep, computeWindowStatsForDevice, hid, hf]
  · intro end_ms thr p rest acc hne hnext
    have hie : p.devices.isEmpty = false := by
      simp [List.isEmpty_iff, hne]
    simp [runPages, hie, hnext]
  · intro end_ms thr p rest acc hne hnext
    have hie : p.devices.isEmpty = false := by
      simp [List.isEmpty_iff, hne]
    simp [runPages, hie, hnext]

set_option maxRecDepth 8000 in
/-- C7 witness: concrete failing-fetch device, failing-write device with a
valid two-sample window, one-sample skipped device, and a two-page run with
`hasNext` true then false. -/
theorem C7_failure_isolation_witness :
    (devStep 86400000 50 jacc0 failDev7 = { jacc0 with total := jacc0.total + 1 }) ∧
    (devStep 86400000 50 jacc0 writeFailDev7 = { jacc0 with total := jacc0.total + 1 }) ∧
    (devStep 86400000 50 jacc0 skipDev7
       = { jacc0 with total := jacc0.total + 1, skipped := jacc0.skipped + 1 }) ∧
    ([failDev7, skipDev7].foldl (devStep 86400000 50) jacc0
       = [skipDev7].foldl (devStep 86400000 50) { jacc0 with total := jacc0.total + 1 }) ∧
    (runPages 86400000 50 [{ devices := [skipDev7], hasNext := true },
        { devices := [failDev7], hasNext := false }] jacc0
       = runPages 86400000 50 [{ devices := [failDev7], hasNext := false }]
           ([skipDev7].foldl (devStep 86400000 50) jacc0)) ∧
    (runPages 86400000 50 [{ devices := [failDev7], hasNext := false }] jacc0
       = [failDev7].foldl (devStep 86400000 50) jacc0) :=
  ⟨C7_failure_isolation.1 86400000 50 jacc0 failDev7 "timeseries fetch failed" "d1" rfl rfl,
   C7_failure_isolation.2.1 86400000 50 jacc0 writeFailDev7 "d3"
     [(0, "door_open=0|height_mm=100|floor_label=G"),
      (1000, "door_open=0|height_mm=100|floor_label=G")]
     { date := "1970-01-01", door_opens := [], idle_sec := [("G", 1)] }
     rfl rfl (by with_unfolding_all rfl) rfl,
   C7_failure_isolation.2.2.1 86400000 50 jacc0 skipDev7 "d2" [(0, "height_mm=100")]
     rfl rfl (by decide),
   C7_failure_isolation.2.2.2.1 86400000 50 jacc0 [skipDev7] failDev7
     "timeseries fetch failed" "d1" rfl rfl,
   C7_failure_isolation.2.2.2.2.1 86400000 50 { devices := [skipDev7], hasNext := true }
     [{ devices := [failDev7], hasNext := false }] jacc0 (by simp) rfl,
   C7_failure_isolation.2.2.2.2.2 86400000 50 { devices := [failDev7], hasNext := false }
     [] jacc0 (by simp) rfl⟩

set_option maxRecDepth 8000 in
/-- C8 counterexample: on the valid-JSON input
`{"height_mm": "x", "b": "|height_mm=5|x"}` the JSON parse succeeds and the
height field `"x"` fails numeric coercion, but the live parser
`_parse_pack_out` — whose `float(h)` raises inside the `try` — falls back to
re-parsing the raw text as `k=v` and returns height `5.0`, not the missing
height (NaN) required by the claim.  (The daily parser, which uses
`_safe_float`, does return NaN.) -/
theorem C8_counterexample :
    (jsonLoads packBad).isSome = true ∧
    pyFloatOfString "x" = none ∧
    parsePackOut packBad = (none, PFloat.val 5, none) ∧
    extractFromPackOut packBad = (none, PFloat.nan, none) := by
  refine ⟨?_, ?_, ?_, ?_⟩ <;> with_unfolding_all rfl

set_option maxRecDepth 8000 in
/-- C8 (amended): pack codec totality and fallback order.  Both parsers are
total by construction (they return a plain triple for every input string).
When `json.loads` fails, both fall back to the `k=v` branch; when JSON
parses but the live JSON path raises (non-object JSON, or a height field
failing `float(...)` coercion), `_parse_pack_out` also falls back to the
`k=v` branch (so a coercion failure normally, but not always, ends in NaN);
in `_extract_from_pack_out` a JSON height field that fails numeric coercion
(or is non-finite) yields the missing height NaN without leaving the JSON
path.  A height chain ending in a stored JSON `null` is not a coercion
failure: `j.get` reads it as `None`, so `float` is never called and both
parsers stay on the JSON path with height NaN — the final conjunct shows the
live parser keeping the door state from such an input rather than falling
back. -/
theorem C8_codec_fallback :
    (∀ s : String, jsonLoads s = none →
       parsePackOut s = kvPathLive s ∧ extractFromPackOut s = kvPathDaily s) ∧
    (∀ (s : String) (j : JVal), jsonLoads s = some j → jsonPathLive j = none →
       parsePackOut s = kvPathLive s) ∧
    (∀ (s : String) (j : JVal) (t : Option String × PFloat × Option Bool),
       jsonLoads s = some j → jsonPathDaily j = some t → extractFromPackOut s = t) ∧
    (∀ (fs : List (String × JVal)) (v : JVal),
       pyOr (pyOr (jgetv fs "height_mm") (jgetv fs "height")) (jgetv fs "height_raw")
         = some v →
       pyFloatOfJVal v = none ∨ pyFloatOfJVal v = some PFloat.nan →
       (jsonPathDaily (.obj fs)).map (fun t => t.2.1) = some PFloat.nan) ∧
    (parsePackOut "\x7b\"height_raw\": null, \"door_open\": true\x7d"
       = (none, PFloat.nan, some true) ∧
     extractFromPackOut "\x7b\"height_raw\": null, \"door_open\": true\x7d"
       = (none, PFloat.nan, some true)) := by
  refine ⟨?_, ?_, ?_, ?_, by constructor <;> with_unfolding_all rfl⟩
  · intro s hj
    by_cases hs : s = ""
    · subst hs
      constructor <;> with_unfolding_all rfl
    · have hbe : (s == "") = false := by simp [hs]
      constructor <;> simp [parsePackOut, extractFromPackOut, hbe, hj]
  · intro s j hj hpath
    have hs : s ≠ "" := by
      intro h
      subst h
      rw [show jsonLoads "" = none from rfl] at hj
      cases hj
    have hbe : (s == "") = false := by simp [hs]
    simp [parsePackOut, hbe, hj, hpath]
  · intro s j t hj hpath
    have hs : s ≠ "" := by
      intro h
      subst h
      rw [show jsonLoads "" = none from rfl] at hj
      cases hj
    have hbe : (s == "") = false := by simp [hs]
    simp [extractFromPackOut, hbe, hj, hpath]
  · intro fs v hchain hfail
    simp only [jsonPathDaily, hchain]
    rcases hfail with hf | hf <;> simp [safeFloatJ, hf]

set_option maxRecDepth 8000 in
/-- C8 witness: a non-JSON string falls back in both parsers; non-object
JSON falls back in the live parser; object JSON with numeric height stays on
the JSON path in the daily parser; a string height failing coercion gives
NaN on the daily JSON path; a null height stays on the JSON path with the
door state preserved. -/
theorem C8_codec_fallback_witness :
    (parsePackOut "abc" = kvPathLive "abc" ∧ extractFromPackOut "abc" = kvPathDaily "abc") ∧
    parsePackOut "[1]" = kvPathLive "[1]" ∧
    extractFromPackOut "\x7b\"height_mm\": 1\x7d" = (none, PFloat.val 1, none) ∧
    (jsonPathDaily (.obj [("height_mm", .jstr "x")])).map (fun t => t.2.1)
      = some PFloat.nan ∧
    parsePackOut "\x7b\"height_raw\": null, \"door_open\": true\x7d"
      = (none, PFloat.nan, some true) :=
  ⟨C8_codec_fallback.1 "abc" (by with_unfolding_all rfl),
   C8_codec_fallback.2.1 "[1]" (.arr [.num 1]) (by with_unfolding_all rfl)
     (by with_unfolding_all rfl),
   C8_codec_fallback.2.2.1 "\x7b\"height_mm\": 1\x7d" (.obj [("height_mm", .num 1)])
     (none, PFloat.val 1, none) (by with_unfolding_all rfl) (by with_unfolding_all rfl),
   C8_codec_fallback.2.2.2.1 [("height_mm", .jstr "x")] (.jstr "x")
     (by with_unfolding_all rfl) (Or.inl (by with_unfolding_all rfl)),
   C8_codec_fallback.2.2.2.2.1⟩

set_option maxRecDepth 8000 in
/-- C10 counterexample: a `pack_out` JSON object whose `height_mm`, `height`
and `height_raw` are all the number 0 — the claim's literal hypothesis — is
parsed with height `0.0`, not NaN: Python's `a or b or c` returns its last
operand even when falsy, so the trailing `height_raw` 0 survives the chain;
likewise `height_raw: 0` alone survives in both the live and the daily
parser. -/
theorem C10_counterexample :
    parsePackOut "\x7b\"height_mm\": 0, \"height\": 0, \"height_raw\": 0\x7d"
      = (none, PFloat.val 0, none) ∧
    extractFromPackOut "\x7b\"height_raw\": 0\x7d" = (none, PFloat.val 0, none) := by
  refine ⟨?_, ?_⟩ <;> with_unfolding_all rfl

set_option maxRecDepth 8000 in
/-- C10 (amended): zero-height edge cases of the `or`-coalescing codec.  A
falsy non-final operand is skipped (`pyOr (some 0) b = b`), so `height_mm: 0`
or `height: 0` alone is parsed as the missing height NaN; but `or` keeps a
falsy final operand (`pyOr none (some v) = some v`), so `height_raw: 0`
(the last alias) is parsed as height 0.0 and remains distinguishable from a
missing reading.  An empty-string `current_floor_label` falls through the
chain and is reported as an absent floor label; an empty `floor_label`
in second position is selected only when truthy. -/
theorem C10_zero_height_coalescing :
    (∀ b : Option JVal, pyOr (some (.num 0)) b = b) ∧
    (∀ v : JVal, pyOr none (some v) = some v) ∧
    parsePackOut "\x7b\"height_mm\": 0\x7d" = (none, PFloat.nan, none) ∧
    extractFromPackOut "\x7b\"height_mm\": 0\x7d" = (none, PFloat.nan, none) ∧
    parsePackOut "\x7b\"height\": 0\x7d" = (none, PFloat.nan, none) ∧
    parsePackOut "\x7b\"height_raw\": 0\x7d" = (none, PFloat.val 0, none) ∧
    parsePackOut "\x7b\"current_floor_label\": \"\"\x7d" = (none, PFloat.nan, none) ∧
    parsePackOut "\x7b\"current_floor_label\": \"\", \"floor_label\": \"1\"\x7d"
      = (some "1", PFloat.nan, none) := by
  refine ⟨fun b => by simp [pyOr, truthy], fun v => rfl, ?_, ?_, ?_, ?_, ?_, ?_⟩ <;>
    with_unfolding_all rfl
